import Mathlib

/-!
Verification of the MedLink AI backend (src/main.py, src/schemas.py).

The embedding below translates the handlers the claims speak about:
the symptom analyzer, the consultation message and end handlers, the
profile handler and the vitals handler.  The document store is modelled
as explicit state (a `Store` record) threaded through each handler;
`datetime.utcnow()` becomes an abstract `now : Nat` argument; Python
`str.lower` is modelled character-wise with `Char.toLower` (all keyword
phrases are ASCII); Python's substring operator `k in text` is modelled
by `pyIn`.
-/

/-- Model of Python's `str.startswith` on character lists:
`listStartsWith needle hay` is true when `needle` is an initial
segment of `hay`. -/
def listStartsWith : List Char → List Char → Bool
  | [], _ => true
  | _ :: _, [] => false
  | a :: as, b :: bs => a == b && listStartsWith as bs

/-- Substring containment on character lists: true when `needle`
occurs contiguously anywhere in the haystack (Python's `in`). -/
def listContainsSub (needle : List Char) : List Char → Bool
  | [] => needle.isEmpty
  | c :: t => listStartsWith needle (c :: t) || listContainsSub needle t

/-- Model of `req.text.lower()`: character-wise ASCII lowering. -/
def pyLower (s : String) : List Char := s.toList.map Char.toLower

/-- Model of Python's `k in text` for a keyword phrase `k` and an
already-lowered text. -/
def pyIn (k : String) (text : List Char) : Bool := listContainsSub k.toList text

/-- The `KEYWORDS` mapping of src/main.py lines 117-123, as an ordered
association list (Python dicts preserve insertion order). -/
def KEYWORDS : List (String × List String) :=
  [("Viral Fever", ["fever", "chills", "body ache", "fatigue"]),
   ("COVID-19", ["loss of taste", "loss of smell", "dry cough", "shortness of breath"]),
   ("Typhoid", ["high fever", "abdominal pain", "constipation", "rose spots"]),
   ("Common Cold", ["runny nose", "sneezing", "sore throat"]),
   ("Migraine", ["headache", "throbbing", "sensitivity to light"])]

/-- The `matches` list accumulated by the loop of `analyze_symptoms`
(src/main.py lines 129-132): the conditions, in declared order, any of
whose phrases occurs in the lowered input. -/
def matchedConditions (reqText : String) : List String :=
  (KEYWORDS.filter fun p => p.2.any fun k => pyIn k (pyLower reqText)).map Prod.fst

/-- `analyze_symptoms` (src/main.py lines 126-135): the `possible_causes`
list of `POST /ai/analyze`.  If no condition matched, the fallback pair
is substituted; the result is sliced to the first three entries. -/
def analyze_symptoms (reqText : String) : List String :=
  (if (matchedConditions reqText).isEmpty then
    ["General Viral Infection", "Dehydration"]
   else matchedConditions reqText).take 3

/-- The matched-condition list is a sublist of the condition names in
declared enumeration order. -/
theorem matchedConditions_sublist (t : String) :
    (matchedConditions t).Sublist (KEYWORDS.map Prod.fst) :=
  List.Sublist.map Prod.fst (List.filter_sublist KEYWORDS)

/-- C1: if the lowered input text matches the keyword sets of four or
more conditions, the analyzer's output is exactly the first three
matched conditions, and the matched conditions are listed in the
mapping's declared enumeration order (Viral Fever, COVID-19, Typhoid,
Common Cold, Migraine) — no ranking by number of matched phrases. -/
theorem analyze_symptoms_four_matches (t : String)
    (h : 4 ≤ (matchedConditions t).length) :
    analyze_symptoms t = (matchedConditions t).take 3 ∧
    (matchedConditions t).Sublist
      ["Viral Fever", "COVID-19", "Typhoid", "Common Cold", "Migraine"] := by
  constructor
  · unfold analyze_symptoms
    cases hm : matchedConditions t with
    | nil => rw [hm] at h; simp at h
    | cons a l => simp
  · exact matchedConditions_sublist t

theorem analyze_symptoms_four_matches_witness :
    4 ≤ (matchedConditions "high fever dry cough sneezing headache").length ∧
    analyze_symptoms "high fever dry cough sneezing headache" =
      (matchedConditions "high fever dry cough sneezing headache").take 3 :=
  ⟨by decide, (analyze_symptoms_four_matches _ (by decide)).1⟩

/-- C2 counterexample: the input below contains a phrase of every
condition, in particular Migraine's phrase "headache", yet "Migraine"
does not appear in the analyzer's output — the three-item truncation
drops it.  The claim as stated is therefore false. -/
theorem analyze_symptoms_match_dropped :
    ("Migraine", ["headache", "throbbing", "sensitivity to light"]) ∈ KEYWORDS ∧
    pyIn "headache" (pyLower "high fever dry cough sneezing headache") = true ∧
    "Migraine" ∉ analyze_symptoms "high fever dry cough sneezing headache" := by
  decide

/-- C2 (amended): if the lowered input contains any phrase of a
condition's keyword set, that condition appears in the accumulated
match list; it appears in the analyzer's output provided at most three
conditions match in total. -/
theorem analyze_symptoms_match_in_output (t c k : String) (ks : List String)
    (hmem : (c, ks) ∈ KEYWORDS) (hk : k ∈ ks)
    (hsub : pyIn k (pyLower t) = true) :
    c ∈ matchedConditions t ∧
    ((matchedConditions t).length ≤ 3 → c ∈ analyze_symptoms t) := by
  have hc : c ∈ matchedConditions t := by
    unfold matchedConditions
    exact List.mem_map.mpr ⟨(c, ks),
      List.mem_filter.mpr ⟨hmem, List.any_eq_true.mpr ⟨k, hk, hsub⟩⟩, rfl⟩
  refine ⟨hc, fun hlen => ?_⟩
  unfold analyze_symptoms
  cases hm : matchedConditions t with
  | nil => rw [hm] at hc; exact absurd hc (List.not_mem_nil c)
  | cons a l =>
    rw [hm] at hc hlen
    simpa [List.take_of_length_le hlen] using hc

theorem analyze_symptoms_match_in_output_witness :
    ("Migraine", ["headache", "throbbing", "sensitivity to light"]) ∈ KEYWORDS ∧
    "headache" ∈ ["headache", "throbbing", "sensitivity to light"] ∧
    pyIn "headache" (pyLower "a mild headache since morning") = true ∧
    "Migraine" ∈ matchedConditions "a mild headache since morning" ∧
    (matchedConditions "a mild headache since morning").length ≤ 3 ∧
    "Migraine" ∈ analyze_symptoms "a mild headache since morning" :=
  ⟨by decide, by decide, by decide,
    (analyze_symptoms_match_in_output "a mild headache since morning" "Migraine"
      "headache" ["headache", "throbbing", "sensitivity to light"]
      (by decide) (by decide) (by decide)).1,
    by decide,
    (analyze_symptoms_match_in_output "a mild headache since morning" "Migraine"
      "headache" ["headache", "throbbing", "sensitivity to light"]
      (by decide) (by decide) (by decide)).2 (by decide)⟩

/-- C3: if no keyword phrase of any condition occurs in the lowered
input, the analyzer returns exactly the fallback pair
["General Viral Infection", "Dehydration"]. -/
theorem analyze_symptoms_no_match (t : String)
    (h : ∀ p ∈ KEYWORDS, ∀ k ∈ p.2, pyIn k (pyLower t) = false) :
    analyze_symptoms t = ["General Viral Infection", "Dehydration"] := by
  have hm : matchedConditions t = [] := by
    unfold matchedConditions
    rw [List.map_eq_nil_iff, List.filter_eq_nil_iff]
    intro p hp hany
    obtain ⟨k, hk, hks⟩ := List.any_eq_true.mp hany
    rw [h p hp k hk] at hks
    exact Bool.false_ne_true hks
  unfold analyze_symptoms
  rw [hm]
  rfl

theorem analyze_symptoms_no_match_witness :
    (∀ p ∈ KEYWORDS, ∀ k ∈ p.2, pyIn k (pyLower "just tired") = false) ∧
    analyze_symptoms "just tired" = ["General Viral Infection", "Dehydration"] :=
  ⟨by decide, analyze_symptoms_no_match "just tired" (by decide)⟩

/-- C4: the analyzer's output never has more than three entries; when
no condition matches, the fallback pair is returned untruncated, with
length exactly two. -/
theorem analyze_symptoms_length_bounds (t : String) :
    (matchedConditions t ≠ [] → (analyze_symptoms t).length ≤ 3) ∧
    (matchedConditions t = [] →
      analyze_symptoms t = ["General Viral Infection", "Dehydration"] ∧
      (analyze_symptoms t).length = 2) := by
  constructor
  · intro _
    exact List.length_take_le 3 _
  · intro hm
    unfold analyze_symptoms
    rw [hm]
    exact ⟨rfl, rfl⟩

theorem analyze_symptoms_length_bounds_witness :
    matchedConditions "feeling sleepy" = [] ∧
    analyze_symptoms "feeling sleepy" = ["General Viral Infection", "Dehydration"] ∧
    (analyze_symptoms "feeling sleepy").length = 2 :=
  ⟨by decide, (analyze_symptoms_length_bounds "feeling sleepy").2 (by decide)⟩

/-- C9: the scenario input "I have a dry cough and loss of smell"
matches exactly COVID-19 and no other condition, so the output is the
one-element list ["COVID-19"]. -/
theorem analyze_symptoms_covid_scenario :
    matchedConditions "I have a dry cough and loss of smell" = ["COVID-19"] ∧
    analyze_symptoms "I have a dry cough and loss of smell" = ["COVID-19"] := by
  decide

/-- C10: for every input string the analyzer's output is non-empty and
contains no duplicate condition names. -/
theorem analyze_symptoms_nonempty_nodup (t : String) :
    analyze_symptoms t ≠ [] ∧ (analyze_symptoms t).Nodup := by
  have hnd : (matchedConditions t).Nodup :=
    List.Nodup.sublist (matchedConditions_sublist t) (by decide)
  unfold analyze_symptoms
  cases hm : matchedConditions t with
  | nil => exact ⟨by decide, by decide⟩
  | cons a l =>
    rw [hm] at hnd
    refine ⟨by simp, ?_⟩
    simpa using List.Nodup.sublist (List.take_sublist 3 (a :: l)) hnd

/-! ## Store model and the persistence handlers -/

/-- The `Consultation` schema (src/schemas.py lines 48-53); timestamps
are abstract `Nat` instants. -/
structure Consultation where
  user_email : String
  doctor_name : String
  started_at : Nat
  ended_at : Option Nat
  rating : Option Int
deriving DecidableEq

/-- The `Message` schema (src/schemas.py lines 56-60). -/
structure Message where
  consultation_id : String
  sender : String
  text : String
  sent_at : Nat
deriving DecidableEq

/-- The `Vital` schema's fields (src/schemas.py lines 31-38);
`temperature_c` is a rational, faithful to the range comparison on the
float field. -/
structure Vital where
  user_email : String
  heart_rate : Int
  bp_systolic : Int
  bp_diastolic : Int
  spo2 : Int
  temperature_c : Rat
  recorded_at : Option Nat
deriving DecidableEq

/-- The pydantic `Field` range constraints of the `Vital` schema
(src/schemas.py lines 33-37): ge/le bounds on each numeric field. -/
def Vital.valid (v : Vital) : Bool :=
  decide (20 ≤ v.heart_rate) && decide (v.heart_rate ≤ 220) &&
  decide (60 ≤ v.bp_systolic) && decide (v.bp_systolic ≤ 220) &&
  decide (40 ≤ v.bp_diastolic) && decide (v.bp_diastolic ≤ 140) &&
  decide (50 ≤ v.spo2) && decide (v.spo2 ≤ 100) &&
  decide (30 ≤ v.temperature_c) && decide (v.temperature_c ≤ 45)

/-- The document store's collections touched by the modelled handlers,
as explicit state. -/
structure Store where
  consultations : List Consultation
  messages : List Message
  vitals : List Vital
deriving DecidableEq

def emptyStore : Store := ⟨[], [], []⟩

/-- `create_document("message", m)`: appends and returns the new
record's index as its identifier. -/
def create_document_message (s : Store) (m : Message) : Store × Nat :=
  ({ s with messages := s.messages ++ [m] }, s.messages.length)

/-- `create_document("vital", v)`. -/
def create_document_vital (s : Store) (v : Vital) : Store × Nat :=
  ({ s with vitals := s.vitals ++ [v] }, s.vitals.length)

/-- The `ChatMessage` request body of `POST /consult/message`
(src/main.py lines 165-168). -/
structure ChatMessage where
  consultation_id : String
  sender : String
  text : String
deriving DecidableEq

/-- `post_message` (src/main.py lines 171-180): builds the stored
`Message`, coercing the sender to "user" when it is not in
["user", "doctor"], stores it, and returns the new identifier. -/
def post_message (s : Store) (now : Nat) (msg : ChatMessage) : Store × Nat :=
  create_document_message s
    { consultation_id := msg.consultation_id,
      sender := if msg.sender ∉ (["user", "doctor"] : List String) then "user" else msg.sender,
      text := msg.text,
      sent_at := now }

/-- The `EndCallRequest` body of `POST /consult/end`
(src/main.py lines 183-185). -/
structure EndCallRequest where
  consultation_id : String
  rating : Option Int
deriving DecidableEq

/-- The response shape of `POST /consult/end`. -/
structure EndCallResponse where
  consultation_id : String
  status : String
  rating : Option Int
deriving DecidableEq

/-- `end_consult` (src/main.py lines 188-191): echoes the request with
status "ended" and touches no store collection. -/
def end_consult (s : Store) (req : EndCallRequest) : Store × EndCallResponse :=
  (s, { consultation_id := req.consultation_id, status := "ended", rating := req.rating })

/-- The record returned by `GET /profile` (src/main.py lines 257-268). -/
structure Profile where
  name : String
  email : String
  age : Nat
  gender : String
  language : String
  dark_mode : Bool
  medical_history : List String
deriving DecidableEq

/-- `get_profile` (src/main.py lines 257-268): a mock profile whose
`email` field echoes the query parameter; the store is never read. -/
def get_profile (_s : Store) (email : String) : Profile :=
  { name := "Sandhya",
    email := email,
    age := 28,
    gender := "Female",
    language := "English",
    dark_mode := false,
    medical_history := ["Consultation - 2024-05-10", "Typhoid (2019)"] }

/-- `record_vital` (src/main.py lines 227-230): store the vital and
answer status "recorded". -/
def record_vital (s : Store) (v : Vital) : Store × String :=
  ((create_document_vital s v).1, "recorded")

/-- `POST /vitals` including the schema validation FastAPI performs
before invoking `record_vital`: an out-of-range body is rejected with
a 422 validation error. -/
def post_vitals (s : Store) (v : Vital) : Except String (Store × String) :=
  if v.valid then Except.ok (record_vital s v) else Except.error "422 validation error"

/-- C5: `post_message` always stores exactly one message, whose sender
is "doctor" when the request's sender is exactly "doctor" and "user" in
every other case (including "nurse"); no request is rejected for an
invalid role, and no other collection changes. -/
theorem post_message_sender_coerced (s : Store) (now : Nat) (msg : ChatMessage) :
    (post_message s now msg).1.messages =
      s.messages ++ [{ consultation_id := msg.consultation_id,
                       sender := if msg.sender = "doctor" then "doctor" else "user",
                       text := msg.text, sent_at := now }] ∧
    (post_message s now msg).1.consultations = s.consultations ∧
    (post_message s now msg).1.vitals = s.vitals := by
  refine ⟨?_, rfl, rfl⟩
  unfold post_message create_document_message
  by_cases hd : msg.sender = "doctor"
  · simp [hd]
  · by_cases hu : msg.sender = "user"
    · simp [hu]
    · simp [hd, hu]

/-- C6: `end_consult` leaves the store — in particular every stored
`Consultation` record — unchanged, and its response echoes the request's
consultation_id and rating with status "ended". -/
theorem end_consult_no_write (s : Store) (req : EndCallRequest) :
    (end_consult s req).1 = s ∧
    (end_consult s req).2 =
      { consultation_id := req.consultation_id, status := "ended", rating := req.rating } :=
  ⟨rfl, rfl⟩

/-- C7 counterexample: the profile returned by `GET /profile` is not the
same record for every email — its `email` field echoes the query
parameter, so two different emails yield two different records. -/
theorem get_profile_not_fixed :
    get_profile emptyStore "a@example.com" ≠ get_profile emptyStore "b@example.com" := by
  decide

/-- C7 (amended): `GET /profile` returns a mock record whose fields
other than `email` are fixed constants, with `email` echoing the query
parameter, and reads nothing from the store (the result is the same for
every store state). -/
theorem get_profile_mock (s₁ s₂ : Store) (email : String) :
    get_profile s₁ email =
      { name := "Sandhya", email := email, age := 28, gender := "Female",
        language := "English", dark_mode := false,
        medical_history := ["Consultation - 2024-05-10", "Typhoid (2019)"] } ∧
    get_profile s₁ email = get_profile s₂ email :=
  ⟨rfl, rfl⟩

/-- C8: the in-range vital (heart_rate 75, bp 120/80, spo2 98,
37.0 °C) passes the schema's range validation and `POST /vitals` stores
it and answers "recorded"; the identical record with heart_rate 250 is
rejected with a validation error, 250 exceeding the declared maximum
of 220. -/
theorem post_vitals_range_check :
    (Vital.mk "sandhya@example.com" 75 120 80 98 37 none).valid = true ∧
    post_vitals emptyStore (Vital.mk "sandhya@example.com" 75 120 80 98 37 none) =
      Except.ok ({ emptyStore with
        vitals := [Vital.mk "sandhya@example.com" 75 120 80 98 37 none] }, "recorded") ∧
    (Vital.mk "sandhya@example.com" 250 120 80 98 37 none).valid = false ∧
    ¬ ((Vital.mk "sandhya@example.com" 250 120 80 98 37 none).heart_rate ≤ 220) ∧
    post_vitals emptyStore (Vital.mk "sandhya@example.com" 250 120 80 98 37 none) =
      Except.error "422 validation error" := by
  refine ⟨by decide, rfl, by decide, by decide, rfl⟩
